import Mathlib

/-!
Verification development for the PortfolioForge resume-to-portfolio generator.

The JavaScript sources are shallowly embedded:
* dynamic JSON-ish values become the `Json` inductive;
* JavaScript builtins used by the code (`JSON.parse`, `String.prototype.trim`,
  `String.prototype.startsWith`, `String.prototype.replace`, `String.prototype.charAt`,
  property access and truthiness) are modelled by `js...` functions below;
* each route handler becomes a pure function from its request data, the responses of
  the external generative-model calls (passed in as `Except JsError String` oracles),
  and the storage state, to a result status plus the new storage state; the number of
  external model calls actually performed on the taken path is returned explicitly;
* thrown JavaScript errors are modelled with `Except JsError`.
-/

namespace PortfolioForge

/-- JavaScript runtime error values thrown by the handlers (modelled by kind and message). -/
inductive JsError where
  | error (message : String)
  | typeError (message : String)
  | referenceError (message : String)
  | syntaxError (message : String)
  | external (message : String)
deriving DecidableEq

/-- JSON values as produced by the JavaScript builtin JSON.parse.  Numbers keep their
source lexeme, which is enough to decide parse success and truthiness here. -/
inductive Json where
  | null
  | bool (b : Bool)
  | num (lexeme : String)
  | str (s : String)
  | arr (elems : List Json)
  | obj (fields : List (String × Json))

/-- Models JS String.prototype.startsWith for literal prefixes. -/
def jsStartsWith (s pre : String) : Bool :=
  pre.toList.isPrefixOf s.toList

/-- JS whitespace characters removed by String.prototype.trim (the ASCII subset,
which is all the repository's strings use). -/
def jsWs (c : Char) : Bool :=
  c == ' ' || c == '\t' || c == '\n' || c == '\r'

/-- Models JS String.prototype.trim. -/
def jsTrim (s : String) : String :=
  String.mk (((s.toList.dropWhile jsWs).reverse.dropWhile jsWs).reverse)

/-- Replace every occurrence of `pat` (a literal, non-overlapping, scanning left to
right); fuel-driven helper. -/
def jsReplaceAllAux (pat rep : List Char) : Nat → List Char → List Char
  | 0, cs => cs
  | _ + 1, [] => []
  | fuel + 1, c :: cs =>
    if pat.isPrefixOf (c :: cs) && !pat.isEmpty then
      rep ++ jsReplaceAllAux pat rep fuel (cs.drop (pat.length - 1))
    else
      c :: jsReplaceAllAux pat rep fuel cs

/-- Models JS String.prototype.replace with a /g literal regex: replace all
non-overlapping occurrences, scanning left to right. -/
def jsReplaceAll (s pat rep : String) : String :=
  String.mk (jsReplaceAllAux pat.toList rep.toList s.toList.length s.toList)

/-- Models JS String.prototype.replace with a plain string pattern: replace only the
first occurrence. -/
def jsReplaceFirstAux (pat rep : List Char) : List Char → List Char
  | [] => []
  | c :: cs =>
    if pat.isPrefixOf (c :: cs) then rep ++ (c :: cs).drop pat.length
    else c :: jsReplaceFirstAux pat rep cs

/-- Models JS String.prototype.replace with a plain string pattern (first occurrence only). -/
def jsReplaceFirst (s pat rep : String) : String :=
  String.mk (jsReplaceFirstAux pat.toList rep.toList s.toList)

/-- Models JS String.prototype.charAt: the character at the index as a string,
empty when out of range. -/
def jsCharAt (s : String) (i : Nat) : String :=
  match s.toList.drop i with
  | [] => ""
  | c :: _ => String.mk [c]

/-- First field with the given key (JSON.parse below keeps keys unique, matching the
JS object produced by it). -/
def lookupField : List (String × Json) → String → Option Json
  | [], _ => none
  | (k', v') :: rest, k => if k' = k then some v' else lookupField rest k

/-- JS property assignment on an object: overwrite an existing key in place,
otherwise append (JS insertion order). -/
def setField : List (String × Json) → String → Json → List (String × Json)
  | [], k, v => [(k, v)]
  | (k', v') :: rest, k, v =>
    if k' = k then (k, v) :: rest else (k', v') :: setField rest k v

/-- JS property read `base.k`.  `none` stands for the JS value `undefined`.
Reading a property of `undefined` or `null` throws a TypeError; reading a property
of any other primitive or of an array yields `undefined` for the keys used here;
reading from an object looks the key up. -/
def jsGetProp : Option Json → String → Except JsError (Option Json)
  | none, k =>
      Except.error (JsError.typeError ("Cannot read properties of undefined (reading " ++ k ++ ")"))
  | some Json.null, k =>
      Except.error (JsError.typeError ("Cannot read properties of null (reading " ++ k ++ ")"))
  | some (Json.obj fs), k => Except.ok (lookupField fs k)
  | some _, _ => Except.ok none

/-- Whether a JSON number lexeme denotes zero (the only falsy numbers reachable from
JSON.parse output; NaN cannot come from a JSON numeral). -/
def jsNumIsZero (lexeme : String) : Bool :=
  let cs := match lexeme.toList with
    | '-' :: r => r
    | r => r
  (cs.takeWhile (fun c => !(c == 'e') && !(c == 'E'))).all (fun c => c == '0' || c == '.')

/-- JS truthiness of a value (`none` = `undefined`). -/
def jsTruthy : Option Json → Bool
  | none => false
  | some Json.null => false
  | some (Json.bool b) => b
  | some (Json.str s) => !(s == "")
  | some (Json.num lx) => !(jsNumIsZero lx)
  | some (Json.arr _) => true
  | some (Json.obj _) => true

mutual
/-- Models the JS string conversion `String(v)` as used by template-literal
interpolation, for JSON values (arrays approximate Array.prototype.toString by
joining the converted elements with commas). -/
def jsToString : Json → String
  | Json.null => "null"
  | Json.bool true => "true"
  | Json.bool false => "false"
  | Json.str s => s
  | Json.num lx => lx
  | Json.arr xs => String.intercalate "," (jsToStringList xs)
  | Json.obj _ => "[object Object]"

def jsToStringList : List Json → List String
  | [] => []
  | j :: r => jsToString j :: jsToStringList r
end

/-- Interpolation of `v || dflt` into a template literal: the string conversion of `v`
when truthy, else `dflt`. -/
def jsOrString (v : Option Json) (dflt : String) : String :=
  if jsTruthy v then
    match v with
    | some j => jsToString j
    | none => dflt
  else dflt

/-- `s || dflt` for strings: `s` unless it is empty. -/
def jsOrElse (s dflt : String) : String :=
  if s = "" then dflt else s

/-- `(v || []).map ...` prelude: falsy becomes the empty array, a truthy non-array has
no `.map` method and throws a TypeError, a truthy array yields its elements. -/
def jsArrayOrDefault (v : Option Json) : Except JsError (List Json) :=
  if jsTruthy v then
    match v with
    | some (Json.arr xs) => Except.ok xs
    | _ => Except.error (JsError.typeError ".map is not a function")
  else Except.ok []

/-- Except-valued map, used for the template-literal `.map(...)` chains whose element
bodies perform property accesses that can throw. -/
def mapExcept (f : Json → Except JsError String) : List Json → Except JsError (List String)
  | [] => Except.ok []
  | x :: xs =>
    match f x with
    | Except.error e => Except.error e
    | Except.ok y =>
      match mapExcept f xs with
      | Except.error e => Except.error e
      | Except.ok ys => Except.ok (y :: ys)

/-! ## JSON.parse

A model of the JavaScript builtin JSON.parse restricted to what the repository
feeds it: full JSON value grammar, strict (whole-string) parsing, basic and
\uXXXX string escapes, the JSON number grammar kept as a lexeme, last key wins
for duplicate object keys. `none` models the thrown SyntaxError. -/

/-- Skip JSON whitespace. -/
def skipWs : List Char → List Char
  | [] => []
  | c :: cs => if jsWs c then skipWs cs else c :: cs

/-- Value of one hex digit of a \uXXXX escape, by code-point ranges
(48-57 digits, 97-102 lowercase, 65-70 uppercase). -/
def hexVal? (c : Char) : Option Nat :=
  let n := c.toNat
  if 48 ≤ n && n ≤ 57 then some (n - 48)
  else if 97 ≤ n && n ≤ 102 then some (n - 87)
  else if 65 ≤ n && n ≤ 70 then some (n - 55)
  else none

/-- Parse the body of a JSON string after its opening quote; returns the decoded
characters and the rest after the closing quote. -/
def parseJString : List Char → Option (List Char × List Char)
  | [] => none
  | '\x22' :: rest => some ([], rest)
  | '\\' :: 'u' :: a :: b :: c :: d :: rest => do
    let ha ← hexVal? a
    let hb ← hexVal? b
    let hc ← hexVal? c
    let hd ← hexVal? d
    let (s, r) ← parseJString rest
    some (Char.ofNat (((ha * 16 + hb) * 16 + hc) * 16 + hd) :: s, r)
  | '\\' :: e :: rest => do
    let decoded ←
      if e = '\x22' then some '\x22'
      else if e = '\\' then some '\\'
      else if e = '/' then some '/'
      else if e = 'b' then some (Char.ofNat 8)
      else if e = 'f' then some (Char.ofNat 12)
      else if e = 'n' then some '\n'
      else if e = 'r' then some '\r'
      else if e = 't' then some '\t'
      else none
    let (s, r) ← parseJString rest
    some (decoded :: s, r)
  | c :: rest =>
    if c.toNat < 32 then none
    else do
      let (s, r) ← parseJString rest
      some (c :: s, r)

/-- Lex the digits prefix. -/
def takeDigits (cs : List Char) : List Char × List Char :=
  (cs.takeWhile Char.isDigit, cs.dropWhile Char.isDigit)

/-- Lex a JSON exponent part after e/E and sign. -/
def lexJExponent (pre : List Char) (cs : List Char) : Option (List Char) × List Char :=
  let (ds, r) := takeDigits cs
  if ds.isEmpty then (none, cs) else (some (pre ++ ds), r)

/-- Lex the optional fraction and exponent after the integer part of a JSON number. -/
def lexJNumberFrac (sign intPart : List Char) (cs : List Char) : Option (List Char × List Char) :=
  let (frac, cs2) := match cs with
    | '.' :: r =>
      let (ds, r') := takeDigits r
      if ds.isEmpty then ([], cs) else ('.' :: ds, r')
    | _ => ([], cs)
  match cs, frac with
  | '.' :: _, [] => none
  | _, _ =>
    let (expo, cs3) := match cs2 with
      | 'e' :: '+' :: r => lexJExponent ['e', '+'] r
      | 'e' :: '-' :: r => lexJExponent ['e', '-'] r
      | 'e' :: r => lexJExponent ['e'] r
      | 'E' :: '+' :: r => lexJExponent ['E', '+'] r
      | 'E' :: '-' :: r => lexJExponent ['E', '-'] r
      | 'E' :: r => lexJExponent ['E'] r
      | r => (some [], r)
    match expo with
    | none => none
    | some e => some (sign ++ intPart ++ frac ++ e, cs3)

/-- Lex a JSON number (sign, integer part without leading zeros, optional fraction and
exponent); returns the lexeme and the rest. -/
def lexJNumber (cs : List Char) : Option (List Char × List Char) :=
  let (sign, cs1) := match cs with
    | '-' :: r => (['-'], r)
    | r => ([], r)
  match cs1 with
  | '0' :: r => lexJNumberFrac sign ['0'] r
  | c :: _ =>
    if c.isDigit then
      let (ds, r) := takeDigits cs1
      lexJNumberFrac sign ds r
    else none
  | [] => none

mutual
/-- Parse one JSON value (no leading whitespace). -/
def parseValue : Nat → List Char → Option (Json × List Char)
  | 0, _ => none
  | _ + 1, [] => none
  | fuel + 1, cs =>
    match cs with
    | 'n' :: 'u' :: 'l' :: 'l' :: rest => some (Json.null, rest)
    | 't' :: 'r' :: 'u' :: 'e' :: rest => some (Json.bool true, rest)
    | 'f' :: 'a' :: 'l' :: 's' :: 'e' :: rest => some (Json.bool false, rest)
    | '\x22' :: rest =>
      match parseJString rest with
      | some (s, r) => some (Json.str (String.mk s), r)
      | none => none
    | '\x5b' :: rest =>
      match skipWs rest with
      | '\x5d' :: r2 => some (Json.arr [], r2)
      | r1 =>
        match parseElements fuel r1 with
        | some (xs, r2) => some (Json.arr xs, r2)
        | none => none
    | '\x7b' :: rest =>
      match skipWs rest with
      | '\x7d' :: r2 => some (Json.obj [], r2)
      | r1 =>
        match parseMembers fuel r1 with
        | some (fs, r2) =>
          some (Json.obj (fs.foldl (fun acc kv => setField acc kv.1 kv.2) []), r2)
        | none => none
    | _ =>
      match lexJNumber cs with
      | some (lx, r) => some (Json.num (String.mk lx), r)
      | none => none

/-- Parse comma-separated array elements up to the closing bracket. -/
def parseElements : Nat → List Char → Option (List Json × List Char)
  | 0, _ => none
  | fuel + 1, cs =>
    match parseValue fuel (skipWs cs) with
    | none => none
    | some (v, r) =>
      match skipWs r with
      | ',' :: r2 =>
        match parseElements fuel r2 with
        | some (vs, r3) => some (v :: vs, r3)
        | none => none
      | '\x5d' :: r2 => some ([v], r2)
      | _ => none

/-- Parse comma-separated object members up to the closing brace. -/
def parseMembers : Nat → List Char → Option (List (String × Json) × List Char)
  | 0, _ => none
  | fuel + 1, cs =>
    match skipWs cs with
    | '\x22' :: r0 =>
      match parseJString r0 with
      | none => none
      | some (k, r1) =>
        match skipWs r1 with
        | ':' :: r2 =>
          match parseValue fuel (skipWs r2) with
          | none => none
          | some (v, r3) =>
            match skipWs r3 with
            | ',' :: r4 =>
              match parseMembers fuel r4 with
              | some (fs, r5) => some ((String.mk k, v) :: fs, r5)
              | none => none
            | '\x7d' :: r4 => some ([(String.mk k, v)], r4)
            | _ => none
        | _ => none
    | _ => none
end

/-- Models the JS builtin JSON.parse: parse a complete JSON text, `none` for the
thrown SyntaxError. -/
def jsonParse (s : String) : Option Json :=
  match parseValue (s.toList.length + 1) (skipWs s.toList) with
  | some (v, rest) => if skipWs rest = [] then some v else none
  | none => none

/-! ## Theme table (src/server.js lines 45-82; the identical literal is inlined in
src/unnamed/part_000 lines 190-227) -/

/-- A visual theme: immutable styling tokens. -/
structure Theme where
  name : String
  background : String
  primaryColor : String
  secondaryColor : String
  card : String
  font : String
  buttonStyle : String
deriving DecidableEq

/-- themes['Software Developer'] in src/server.js. -/
def themeSoftwareDeveloper : Theme :=
  ⟨"Developer Dark", "bg-gray-900 text-white", "bg-blue-500", "text-blue-400",
   "bg-gray-800", "font-mono", "bg-blue-600 hover:bg-blue-700"⟩

/-- themes['Graphic Designer'] in src/server.js. -/
def themeGraphicDesigner : Theme :=
  ⟨"Designer Light", "bg-white text-gray-800", "bg-pink-500", "text-pink-500",
   "bg-gray-50", "font-sans", "bg-pink-600 hover:bg-pink-700"⟩

/-- themes['Data Scientist'] in src/server.js. -/
def themeDataScientist : Theme :=
  ⟨"Data Green", "bg-gray-800 text-gray-100", "bg-green-500", "text-green-400",
   "bg-gray-700", "font-sans", "bg-green-600 hover:bg-green-700"⟩

/-- themes['Default'] in src/server.js. -/
def themeDefault : Theme :=
  ⟨"Professional Blue", "bg-gray-100 text-gray-900", "bg-indigo-600", "text-indigo-500",
   "bg-white", "font-sans", "bg-indigo-600 hover:bg-indigo-700"⟩

/-- The JS key lookup `themes[label]` on the server.js theme table. -/
def themeLookup (label : String) : Option Theme :=
  if label = "Software Developer" then some themeSoftwareDeveloper
  else if label = "Graphic Designer" then some themeGraphicDesigner
  else if label = "Data Scientist" then some themeDataScientist
  else if label = "Default" then some themeDefault
  else none

/-- `themes[label] || themes['Default']` (src/server.js line 159). -/
def selectTheme (label : String) : Theme :=
  (themeLookup label).getD themeDefault

/-! The theme table of src/generate-portfolio.js (lines 97-102) differs from the
server.js one only in the Default button style. -/

/-- themes['Default'] in src/generate-portfolio.js (buttonStyle differs from server.js). -/
def themeNetlifyDefault : Theme :=
  ⟨"Professional Blue", "bg-gray-100 text-gray-900", "bg-indigo-600", "text-indigo-500",
   "bg-white", "font-sans", "bg-indigo-700 hover:bg-indigo-800"⟩

/-- The JS key lookup `themes[label]` on the src/generate-portfolio.js theme table. -/
def netlifyThemeLookup (label : String) : Option Theme :=
  if label = "Software Developer" then some themeSoftwareDeveloper
  else if label = "Graphic Designer" then some themeGraphicDesigner
  else if label = "Data Scientist" then some themeDataScientist
  else if label = "Default" then some themeNetlifyDefault
  else none

/-! ## Username Normalizer (src/server.js lines 84-99) -/

/-- convertUsernameToUrl from src/server.js. -/
def convertUsernameToUrl (platform username : String) : String :=
  if username = "" then ""
  else if jsStartsWith username "http://" || jsStartsWith username "https://" then username
  else if platform = "linkedin" then "https://linkedin.com/in/" ++ username
  else if platform = "github" then "https://github.com/" ++ username
  else username

/-! ## Resume extractor parse pipeline (src/server.js lines 100-139,
src/unnamed/part_000 lines 134-169) -/

/-- The fence stripping of src/server.js line 124:
`.replace(/```json/g, '').replace(/```/g, '').trim()`. -/
def stripFences (s : String) : String :=
  jsTrim (jsReplaceAll (jsReplaceAll s "```json" "") "```" "")

/-- The greedy regex match `/\x7b[\s\S]*\x7d/` of src/server.js line 128: the span from
the first opening brace to the last closing brace, provided the latter comes after the
former; `none` when the regex does not match. -/
def greedyBraceSpan (s : String) : Option String :=
  let cs := s.toList
  match cs.findIdx? (fun c => c == '\x7b'), (cs.reverse.findIdx? (fun c => c == '\x7d')) with
  | some i, some k =>
    let j := cs.length - 1 - k
    if i < j then some (String.mk ((cs.drop i).take (j - i + 1))) else none
  | _, _ => none

/-- The text handed to JSON.parse by src/server.js lines 124-134: strip fences and
trim; keep the text if it starts with a brace, otherwise substitute the greedy brace
span when the regex matches. -/
def extractJsonText (raw : String) : String :=
  let t := stripFences raw
  if jsStartsWith t "\x7b" then t
  else
    match greedyBraceSpan t with
    | some m => m
    | none => t

/-- parseResumeWithAI of src/server.js lines 100-139.  The argument is the text of the
model response, or the error the model call threw.  The catch block (line 137) logs
`response.text()`, but `response` is a const declared inside the try block and is not
in scope in the catch, so entering the catch raises a ReferenceError before the
intended `throw new Error("AI model returned an invalid JSON format.")` on line 138. -/
def parseResumeWithAI (modelResp : Except JsError String) : Except JsError Json :=
  match modelResp with
  | Except.error _ => Except.error (JsError.referenceError "response is not defined")
  | Except.ok text =>
    match jsonParse (extractJsonText text) with
    | some j => Except.ok j
    | none => Except.error (JsError.referenceError "response is not defined")

/-- parseResumeWithAI of src/unnamed/part_000 lines 134-169: same parse pipeline, but
its catch block only logs the caught error and reaches the
`throw new Error("AI model returned an invalid JSON format.")`. -/
def parseResumeWithAIPart000 (modelResp : Except JsError String) : Except JsError Json :=
  match modelResp with
  | Except.error _ => Except.error (JsError.error "AI model returned an invalid JSON format.")
  | Except.ok text =>
    match jsonParse (extractJsonText text) with
    | some j => Except.ok j
    | none => Except.error (JsError.error "AI model returned an invalid JSON format.")

/-- Modelled from the spec: "search for the first `...` balanced-looking span via
greedy brace matching" (spec section 4.1).  Scans to the first opening brace and takes
the span up to the brace that closes it, tracking nesting depth.  Defined only to
compare the specified behaviour with the code's `greedyBraceSpan`. -/
def balancedFromAux : List Char → Nat → List Char → Option String
  | [], _, _ => none
  | c :: rest, depth, acc =>
    if c = '\x7b' then balancedFromAux rest (depth + 1) (c :: acc)
    else if c = '\x7d' then
      if depth = 1 then some (String.mk (c :: acc).reverse)
      else balancedFromAux rest (depth - 1) (c :: acc)
    else balancedFromAux rest depth (c :: acc)

/-- Modelled from the spec: the first balanced brace span of a text (see
`balancedFromAux`). -/
def firstBalancedSpan (s : String) : Option String :=
  match s.toList.dropWhile (fun c => !(c == '\x7b')) with
  | [] => none
  | cs => balancedFromAux cs 0 []

/-- Modelled from the spec: the parse input under the spec's reading, with the first
balanced span in place of the code's greedy span. -/
def specExtractJsonText (raw : String) : String :=
  let t := stripFences raw
  if jsStartsWith t "\x7b" then t
  else
    match firstBalancedSpan t with
    | some m => m
    | none => t

/-! ## Profession classifier (src/server.js lines 141-164,
src/unnamed/part_000 lines 171-233) -/

/-- classifyProfessionAndSelectTheme of src/server.js lines 141-164.  The argument is
the text of the model response or the error the model call threw; the catch block
returns the module-level `themes['Default']`.  The profile passed to the real function
only feeds the prompt, so it does not appear here. -/
def classifyProfessionAndSelectTheme (modelResp : Except JsError String) : Theme :=
  match modelResp with
  | Except.error _ => themeDefault
  | Except.ok text => selectTheme (jsTrim text)

/-- classifyProfessionAndSelectTheme of src/unnamed/part_000 lines 171-233.  Its theme
table literal (lines 190-227, identical to the server.js table) is a const declared
inside the try block, so the catch block's `return themes['Default']` (line 232) reads
an out-of-scope name and raises a ReferenceError instead of returning the theme. -/
def classifyProfessionAndSelectThemePart000 (modelResp : Except JsError String) :
    Except JsError Theme :=
  match modelResp with
  | Except.error _ => Except.error (JsError.referenceError "themes is not defined")
  | Except.ok text => Except.ok (selectTheme (jsTrim text))

/-! ## In-memory portfolio store of src/server.js (the module-level `portfolios` map) -/

/-- A record of the in-memory `portfolios` map of src/server.js: parsed profile data
(a dynamic JSON value), the chosen theme, the profile picture reference and the
timestamps (updatedAt only exists after an update). -/
structure Portfolio where
  data : Json
  theme : Theme
  profilePictureUrl : String
  createdAt : Nat
  updatedAt : Option Nat

/-- The in-memory store, keyed by portfolio id. -/
def Store : Type := String → Option Portfolio

/-- The social-link normalization block shared by the three src/server.js handlers
(lines 183-188, 236-241, 261-266) for one field:
`if (pd.personalInfo.FIELD) pd.personalInfo.FIELD = convertUsernameToUrl(PLATFORM, ...)`.
Reading `personalInfo` of a null/undefined base or `FIELD` of a missing `personalInfo`
throws; a truthy non-string field value reaches `username.startsWith` inside
convertUsernameToUrl and throws; a falsy field leaves the object untouched. -/
def normalizeSocialField (pd : Json) (field platform : String) : Except JsError Json :=
  match jsGetProp (some pd) "personalInfo" with
  | Except.error e => Except.error e
  | Except.ok piv =>
    match jsGetProp piv field with
    | Except.error e => Except.error e
    | Except.ok v =>
      if jsTruthy v then
        match v with
        | some (Json.str s) =>
          match pd, piv with
          | Json.obj dfs, some (Json.obj pfs) =>
            Except.ok (Json.obj (setField dfs "personalInfo"
              (Json.obj (setField pfs field (Json.str (convertUsernameToUrl platform s))))))
          | _, _ => Except.ok pd
        | _ => Except.error (JsError.typeError "username.startsWith is not a function")
      else Except.ok pd

/-- Both normalization statements in order: linkedin then github. -/
def normalizeSocials (pd : Json) : Except JsError Json :=
  match normalizeSocialField pd "linkedin" "linkedin" with
  | Except.error e => Except.error e
  | Except.ok pd1 => normalizeSocialField pd1 "github" "github"

/-- The profile-picture URL computation of src/server.js lines 190-194 (resume route)
and 268-273 (manual route): a data URL when a photo was uploaded, otherwise a
placeholder keyed by the subject's initial; the initial read can throw. -/
def photoUrlOf (pd : Json) (photo : Option (String × String)) : Except JsError String :=
  match jsGetProp (some pd) "personalInfo" with
  | Except.error e => Except.error e
  | Except.ok piv =>
    match jsGetProp piv "name" with
    | Except.error e => Except.error e
    | Except.ok namev =>
      match
        (if jsTruthy namev then
          match namev with
          | some (Json.str s) => Except.ok (jsCharAt s 0)
          | _ => Except.error (JsError.typeError ".charAt is not a function")
        else Except.ok "P" : Except JsError String)
      with
      | Except.error e => Except.error e
      | Except.ok initial =>
        match photo with
        | some (mimetype, base64) => Except.ok ("data:" ++ mimetype ++ ";base64," ++ base64)
        | none => Except.ok ("https://placehold.co/150x150/222/fff?text=" ++ initial)

/-- Outcome of the resume-generation route: HTTP status, number of external model
calls performed on the taken path, and the store afterwards. -/
structure RouteOutcome where
  status : Nat
  modelCalls : Nat
  store : Store

/-- The POST /api/generate-from-resume handler of src/server.js lines 166-225, from
the point where pdf-parse has produced `resumeText` (the multer/pdf-parse plumbing and
prompt construction are outside the embedding; the two model responses and the fresh
uuid are inputs).  Any thrown error lands in the route's catch and yields a 500
(no message here contains 'bad XRef entry', which would give a 400). -/
def generateFromResumeRoute (resumeText : String)
    (extractResp classifyResp : Except JsError String)
    (photo : Option (String × String)) (newId : String) (now : Nat)
    (store : Store) : RouteOutcome :=
  if resumeText = "" ∨ (jsTrim resumeText).length = 0 then
    ⟨400, 0, store⟩
  else
    match parseResumeWithAI extractResp with
    | Except.error _ => ⟨500, 1, store⟩
    | Except.ok parsedData =>
      let selectedTheme := classifyProfessionAndSelectTheme classifyResp
      match normalizeSocials parsedData with
      | Except.error _ => ⟨500, 2, store⟩
      | Except.ok parsedData2 =>
        match photoUrlOf parsedData2 photo with
        | Except.error _ => ⟨500, 2, store⟩
        | Except.ok photoUrl =>
          ⟨200, 2,
           fun k => if k = newId then some ⟨parsedData2, selectedTheme, photoUrl, now, none⟩
                    else store k⟩

/-- The POST /api/create-manual-portfolio handler of src/server.js lines 256-296.
The body's portfolioData and theme come from the client; no external model call
appears anywhere on this route, which the modelCalls field records. -/
def createManualPortfolioRoute (portfolioData : Json) (theme : Theme)
    (photo : Option (String × String)) (newId : String) (now : Nat)
    (store : Store) : RouteOutcome :=
  match normalizeSocials portfolioData with
  | Except.error _ => ⟨500, 0, store⟩
  | Except.ok pd2 =>
    match photoUrlOf pd2 photo with
    | Except.error _ => ⟨500, 0, store⟩
    | Except.ok photoUrl =>
      ⟨200, 0,
       fun k => if k = newId then some ⟨pd2, theme, photoUrl, now, none⟩ else store k⟩

/-! ## The serverless generate-portfolio function (src/generate-portfolio.js) -/

/-- JS property assignment `base.k = v`: setting on null/undefined throws, setting on
an object updates it, setting on any other primitive is silently ignored in sloppy
mode. -/
def jsSetProp (base : Json) (k : String) (v : Json) : Except JsError Json :=
  match base with
  | Json.null => Except.error (JsError.typeError ("Cannot set properties of null (setting " ++ k ++ ")"))
  | Json.obj fs => Except.ok (Json.obj (setField fs k v))
  | other => Except.ok other

/-- generateFromResume of src/generate-portfolio.js lines 75-90 plus a count of the
model calls it performs: clean the extraction response with
`.replace(/```json\n|```/g, '').trim()` (no brace-span fallback in this variant),
JSON.parse it strictly, then store the trimmed classification response under
`profession`.  Errors of either model call and the JSON.parse SyntaxError propagate
to the handler's catch. -/
def generateFromResume (extractResp classifyResp : Except JsError String) :
    Except JsError Json × Nat :=
  match extractResp with
  | Except.error e => (Except.error e, 1)
  | Except.ok text =>
    let cleanedJsonString := jsTrim (jsReplaceAll (jsReplaceAll text "```json\n" "") "```" "")
    match jsonParse cleanedJsonString with
    | none => (Except.error (JsError.syntaxError "Unexpected token in JSON"), 1)
    | some data =>
      match classifyResp with
      | Except.error e => (Except.error e, 2)
      | Except.ok profText => (jsSetProp data "profession" (Json.str (jsTrim profText)), 2)

/-- generateFromManual of src/generate-portfolio.js lines 92-95:
`manualData.profession = 'Default'; return manualData`.  Called with `undefined` when
the body has no manualData, which throws. -/
def generateFromManual (manualData : Option Json) : Except JsError Json :=
  match manualData with
  | none => Except.error (JsError.typeError "Cannot set properties of undefined (setting profession)")
  | some m => jsSetProp m "profession" (Json.str "Default")

/-- The row inserted into the hosted `portfolios` table by src/generate-portfolio.js
line 55. -/
structure NetlifyRow where
  portfolio_data : Json
  selected_theme : Theme

/-- Outcome of the serverless handler: HTTP status, model calls performed, rows
after the insert. -/
structure NetlifyOutcome where
  statusCode : Nat
  modelCalls : Nat
  store : List NetlifyRow

/-- `themes[portfolioData.profession] || themes['Default']` of
src/generate-portfolio.js line 51, after the profession property has been read. -/
def netlifySelectedTheme (profv : Option Json) : Theme :=
  (match profv with
   | some (Json.str s) => netlifyThemeLookup s
   | _ => none).getD themeNetlifyDefault

/-- The POST path of exports.handler in src/generate-portfolio.js lines 15-73, from
the parsed body `{resumeText, manualData}` on: dispatch on the truthiness of
resumeText, look the theme up, insert one row (an insert error models the thrown
`Supabase error: ...`); every thrown error is caught and mapped to a 500 with
nothing persisted. -/
def generatePortfolioHandler (resumeText : Option String) (manualData : Option Json)
    (extractResp classifyResp : Except JsError String)
    (insertError : Option String) (store : List NetlifyRow) : NetlifyOutcome :=
  let rtTruthy := match resumeText with
    | some s => !(s == "")
    | none => false
  let step : Except JsError Json × Nat :=
    if rtTruthy then generateFromResume extractResp classifyResp
    else (generateFromManual manualData, 0)
  match step with
  | (Except.error _, calls) => ⟨500, calls, store⟩
  | (Except.ok portfolioData, calls) =>
    match jsGetProp (some portfolioData) "profession" with
    | Except.error _ => ⟨500, calls, store⟩
    | Except.ok profv =>
      let theme := netlifySelectedTheme profv
      match insertError with
      | some _ => ⟨500, calls, store⟩
      | none => ⟨200, calls, store ++ [⟨portfolioData, theme⟩]⟩

/-! ## The serverless handler variant of src/unnamed/part_000 -/

/-- A row of the hosted `portfolios` table as written by src/unnamed/part_000
(lines 53-60 and 92-99): this variant stores a share_id and the theme's NAME. -/
structure Part000Row where
  share_id : String
  portfolio_data : Json
  profile_picture_url : String
  selected_theme : String

/-- Outcome of the part_000 handler: HTTP status, model calls performed, rows after
the insert. -/
structure Part000Outcome where
  statusCode : Nat
  modelCalls : Nat
  store : List Part000Row

/-- The type === 'ai' path of exports.handler in src/unnamed/part_000 lines 80-117:
`parseResumeWithAI(body.resumeText || '')` is invoked unconditionally — there is no
PDF extraction and no empty-text guard in this variant, so even an empty resumeText
costs a model call — then classification, then the insert. -/
def part000AiHandler (_resumeText profilePictureUrl : Option String)
    (extractResp classifyResp : Except JsError String) (newId : String)
    (insertError : Option String) (store : List Part000Row) : Part000Outcome :=
  match parseResumeWithAIPart000 extractResp with
  | Except.error _ => ⟨500, 1, store⟩
  | Except.ok parsedData =>
    match classifyProfessionAndSelectThemePart000 classifyResp with
    | Except.error _ => ⟨500, 2, store⟩
    | Except.ok selectedTheme =>
      match insertError with
      | some _ => ⟨500, 2, store⟩
      | none =>
        ⟨200, 2,
         store ++ [⟨newId, parsedData, profilePictureUrl.getD "", selectedTheme.name⟩]⟩

/-! ## Portfolio renderer of src/server.js (GET /portfolio/:id, lines 361-539)

The template literal is embedded as string concatenation; the interpolated
expressions, tags, classes and literal texts follow the source, with the inert
indentation/newlines of the template collapsed.  `portfolioUrl` and `imageUrl` are
computed by the route from the request context (lines 393-409) and passed in. -/

/-- Interpolation `${v}` of a value known to exist (JS stringification). -/
def jsVal : Option Json → String
  | some j => jsToString j
  | none => "undefined"

/-- Property read used after `portfolio.data.personalInfo || \x7b\x7d`: the base is a
defined, non-null value, so the read cannot throw. -/
def jsGetTotal (v : Option Json) (k : String) : Option Json :=
  match v with
  | some (Json.obj fs) => lookupField fs k
  | _ => none

/-- One entry of the Work Experience map of src/server.js lines 494-502. -/
def expEntryHtml (theme : Theme) (job : Json) : Except JsError String :=
  match jsGetProp (some job) "role" with
  | Except.error e => Except.error e
  | Except.ok rolev =>
    match jsGetProp (some job) "company" with
    | Except.error e => Except.error e
    | Except.ok companyv =>
      match jsGetProp (some job) "dates" with
      | Except.error e => Except.error e
      | Except.ok datesv =>
        match jsGetProp (some job) "description" with
        | Except.error e => Except.error e
        | Except.ok descv =>
          match jsArrayOrDefault descv with
          | Except.error e => Except.error e
          | Except.ok ds =>
            Except.ok ("<div class=\"mb-4\"><h4 class=\"text-lg font-bold\">"
              ++ jsOrString rolev "Role" ++ " at " ++ jsOrString companyv "Company"
              ++ "</h4><p class=\"text-sm " ++ theme.secondaryColor ++ " mb-1\">"
              ++ jsOrString datesv ""
              ++ "</p><ul class=\"list-disc list-inside text-gray-300\">"
              ++ String.join (ds.map (fun d => "<li>" ++ jsToString d ++ "</li>"))
              ++ "</ul></div>")

/-- One entry of the Projects map of src/server.js lines 514-520. -/
def projEntryHtml (theme : Theme) (proj : Json) : Except JsError String :=
  match jsGetProp (some proj) "title" with
  | Except.error e => Except.error e
  | Except.ok titlev =>
    match jsGetProp (some proj) "description" with
    | Except.error e => Except.error e
    | Except.ok descv =>
      match jsGetProp (some proj) "link" with
      | Except.error e => Except.error e
      | Except.ok linkv =>
        Except.ok ("<div class=\"" ++ theme.card ++ " p-4 rounded-lg mb-4\"><h4 class=\"font-bold "
          ++ theme.secondaryColor ++ "\">" ++ jsOrString titlev "Project Title"
          ++ "</h4><p class=\"text-gray-300 text-sm mt-1\">" ++ jsOrString descv ""
          ++ "</p>"
          ++ (if jsTruthy linkv then
                "<a href=\"" ++ jsVal linkv
                ++ "\" target=\"_blank\" class=\"text-blue-400 hover:underline text-sm mt-2 inline-block\">View Project &rarr;</a>"
              else "")
          ++ "</div>")

/-- `...map(job => ...).join('') || '<p class="text-gray-400">No work experience listed.</p>'`. -/
def serverExperienceSection (entries : List String) : String :=
  jsOrElse (String.join entries) "<p class=\"text-gray-400\">No work experience listed.</p>"

/-- The Skills map/join with its fallback (src/server.js line 509). -/
def serverSkillsSection (theme : Theme) (skills : List Json) : String :=
  jsOrElse
    (String.join (skills.map (fun skill =>
      "<span class=\"" ++ theme.primaryColor
        ++ " text-white text-sm font-medium mr-2 mb-2 px-3 py-1 rounded-full\">"
        ++ jsToString skill ++ "</span>")))
    "<p class=\"text-gray-400\">No skills listed.</p>"

/-- `...map(proj => ...).join('') || '<p class="text-gray-400">No projects listed.</p>'`
(src/server.js lines 514-520). -/
def serverProjectsSection (entries : List String) : String :=
  jsOrElse (String.join entries) "<p class=\"text-gray-400\">No projects listed.</p>"

/-- Everything of the src/server.js portfolio document before the projects-section
body (lines 412-513). -/
def serverHtmlPre (theme : Theme) (profilePictureUrl portfolioUrl imageUrl : String)
    (namev emailv phonev linkedinv githubv websitev summaryv : Option Json)
    (expHtml skillsHtml : String) : String :=
  "<!DOCTYPE html><html lang=\"en\"><head><meta charset=\"UTF-8\" /><meta name=\"viewport\" content=\"width=device-width, initial-scale=1.0\" /><title>"
  ++ jsOrString namev "Portfolio"
  ++ "</title><meta property=\"og:type\" content=\"website\" /><meta property=\"og:url\" content=\""
  ++ portfolioUrl
  ++ "\" /><meta property=\"og:title\" content=\"" ++ jsOrString namev "Portfolio"
  ++ "\" /><meta property=\"og:description\" content=\"" ++ jsOrString summaryv "Professional portfolio"
  ++ "\" /><meta property=\"og:image\" content=\"" ++ imageUrl
  ++ "\" /><meta property=\"twitter:card\" content=\"summary_large_image\" /><meta property=\"twitter:url\" content=\""
  ++ portfolioUrl
  ++ "\" /><meta property=\"twitter:title\" content=\"" ++ jsOrString namev "Portfolio"
  ++ "\" /><meta property=\"twitter:description\" content=\"" ++ jsOrString summaryv "Professional portfolio"
  ++ "\" /><meta property=\"twitter:image\" content=\"" ++ imageUrl
  ++ "\" /><script src=\"https://cdn.tailwindcss.com\"></script><link href=\"https://fonts.googleapis.com/css2?family=Inter:wght@400;500;700&family=Roboto+Mono:wght@400;500&display=swap\" rel=\"stylesheet\"><link rel=\"stylesheet\" href=\"https://cdnjs.cloudflare.com/ajax/libs/font-awesome/6.4.0/css/all.min.css\"><style>body \x7b font-family: \x27Inter\x27, sans-serif; \x7d .font-mono \x7b font-family: \x27Roboto Mono\x27, monospace; \x7d .social-link \x7b display: inline-flex; align-items: center; justify-content: center; width: 48px; height: 48px; border-radius: 50%; transition: all 0.3s ease; \x7d .social-link:hover \x7b transform: translateY(-3px); \x7d</style></head><body class=\""
  ++ theme.background ++ " " ++ theme.font
  ++ " min-h-screen\"><div class=\"container mx-auto p-4 md:p-8 max-w-5xl\"><header class=\"flex flex-col md:flex-row items-center text-center md:text-left gap-8 mb-12\"><img src=\""
  ++ profilePictureUrl
  ++ "\" alt=\"Profile Picture\" class=\"w-36 h-36 rounded-full border-4 border-opacity-50 "
  ++ jsReplaceFirst theme.secondaryColor "text-" "border-"
  ++ " object-cover shadow-lg\"><div><h1 class=\"text-4xl md:text-5xl font-bold\">"
  ++ jsOrString namev "Your Name"
  ++ "</h1><p class=\"text-xl " ++ theme.secondaryColor ++ " mt-1\">"
  ++ (if jsTruthy emailv then
        "<a href=\"mailto:" ++ jsVal emailv ++ "\" class=\"hover:underline\">" ++ jsVal emailv ++ "</a>"
      else "your.email@example.com")
  ++ "</p>"
  ++ (if jsTruthy phonev then
        "<p class=\"text-gray-400 mb-4\"><i class=\"fas fa-phone mr-2\"></i>" ++ jsVal phonev ++ "</p>"
      else "")
  ++ "<div class=\"flex justify-center md:justify-start gap-4 mt-4\">"
  ++ (if jsTruthy emailv then
        "<a href=\"mailto:" ++ jsVal emailv ++ "\" class=\"social-link " ++ theme.secondaryColor
          ++ " hover:text-white transition-colors\" title=\"Email\"><i class=\"fas fa-envelope text-xl\"></i></a>"
      else "")
  ++ (if jsTruthy linkedinv then
        "<a href=\"" ++ jsVal linkedinv ++ "\" target=\"_blank\" class=\"social-link " ++ theme.secondaryColor
          ++ " hover:text-white transition-colors\" title=\"LinkedIn\"><i class=\"fab fa-linkedin text-xl\"></i></a>"
      else "")
  ++ (if jsTruthy githubv then
        "<a href=\"" ++ jsVal githubv ++ "\" target=\"_blank\" class=\"social-link " ++ theme.secondaryColor
          ++ " hover:text-white transition-colors\" title=\"GitHub\"><i class=\"fab fa-github text-xl\"></i></a>"
      else "")
  ++ (if jsTruthy websitev then
        "<a href=\"" ++ jsVal websitev ++ "\" target=\"_blank\" class=\"social-link " ++ theme.secondaryColor
          ++ " hover:text-white transition-colors\" title=\"Website\"><i class=\"fas fa-globe text-xl\"></i></a>"
      else "")
  ++ "</div></div></header><div class=\"grid md:grid-cols-3 gap-8\"><div class=\"md:col-span-2 space-y-8\"><section><h2 class=\"text-2xl font-bold border-b-2 "
  ++ jsReplaceFirst theme.secondaryColor "text-" "border-"
  ++ " pb-2 mb-4\">Professional Summary</h2><p class=\"text-gray-300\">"
  ++ jsOrString summaryv "No summary provided."
  ++ "</p></section><section><h2 class=\"text-2xl font-bold border-b-2 "
  ++ jsReplaceFirst theme.secondaryColor "text-" "border-"
  ++ " pb-2 mb-4\">Work Experience</h2>" ++ expHtml
  ++ "</section></div><div class=\"md:col-span-1 space-y-8\"><section><h2 class=\"text-2xl font-bold border-b-2 "
  ++ jsReplaceFirst theme.secondaryColor "text-" "border-"
  ++ " pb-2 mb-4\">Skills</h2><div class=\"flex flex-wrap\">" ++ skillsHtml
  ++ "</div></section><section><h2 class=\"text-2xl font-bold border-b-2 "
  ++ jsReplaceFirst theme.secondaryColor "text-" "border-"
  ++ " pb-2 mb-4\">Projects</h2>"

/-- Everything of the src/server.js portfolio document after the projects-section
body (lines 521-532). -/
def serverHtmlPost (portfolioUrl : String) : String :=
  "</section></div></div><footer class=\"mt-12 pt-6 border-t border-gray-700 text-center text-gray-500 text-sm\"><p>This portfolio is hosted at: "
  ++ portfolioUrl
  ++ "</p></footer></div></body></html>"

/-- The portfolio document built by GET /portfolio/:id of src/server.js (lines
381-534) for a stored record; errors thrown while building land in the route's catch
(500 error page). -/
def portfolioPageHtml (p : Portfolio) (portfolioUrl imageUrl : String) :
    Except JsError String :=
  Except.bind (jsGetProp (some p.data) "personalInfo") (fun piv0 =>
  let personalInfo := if jsTruthy piv0 then piv0 else some (Json.obj [])
  Except.bind (jsGetProp (some p.data) "summary") (fun summaryv =>
  Except.bind (jsGetProp (some p.data) "experience") (fun expv =>
  Except.bind (jsArrayOrDefault expv) (fun exps =>
  Except.bind (mapExcept (expEntryHtml p.theme) exps) (fun expEntries =>
  Except.bind (jsGetProp (some p.data) "skills") (fun skillsv =>
  Except.bind (jsArrayOrDefault skillsv) (fun skills =>
  Except.bind (jsGetProp (some p.data) "projects") (fun projv =>
  Except.bind (jsArrayOrDefault projv) (fun projs =>
  Except.bind (mapExcept (projEntryHtml p.theme) projs) (fun projEntries =>
  Except.ok (serverHtmlPre p.theme p.profilePictureUrl portfolioUrl imageUrl
      (jsGetTotal personalInfo "name") (jsGetTotal personalInfo "email")
      (jsGetTotal personalInfo "phone") (jsGetTotal personalInfo "linkedin")
      (jsGetTotal personalInfo "github") (jsGetTotal personalInfo "website")
      summaryv (serverExperienceSection expEntries)
      (serverSkillsSection p.theme skills)
    ++ serverProjectsSection projEntries
    ++ serverHtmlPost portfolioUrl)))))))))))

/-! ## Portfolio renderer of src/netlify/functions/get-portfolio.js -/

/-- The style bundle returned by getThemeStyles (lines 180-231). -/
structure ThemeStyles where
  bodyClass : String
  textColor : String
  secondaryColor : String
  borderColor : String
  skillBg : String
  skillText : String
  cardBg : String
  socialBg : String
  socialHover : String
deriving DecidableEq

/-- getThemeStyles of src/netlify/functions/get-portfolio.js: a switch on the stored
`selected_theme` string, whose default arm serves every unrecognized value. -/
def getThemeStyles (themeName : String) : ThemeStyles :=
  if themeName = "Software Developer" then
    ⟨"bg-gray-900 text-white", "text-gray-300", "text-blue-400", "border-blue-400",
     "bg-blue-500", "text-white", "bg-gray-800", "bg-gray-800", "bg-gray-700"⟩
  else if themeName = "Graphic Designer" then
    ⟨"bg-white text-gray-800", "text-gray-700", "text-pink-500", "border-pink-500",
     "bg-pink-100", "text-pink-800", "bg-gray-50", "bg-pink-100", "bg-pink-200"⟩
  else if themeName = "Data Scientist" then
    ⟨"bg-gray-800 text-gray-100", "text-gray-300", "text-green-400", "border-green-400",
     "bg-green-500", "text-white", "bg-gray-700", "bg-gray-700", "bg-gray-600"⟩
  else
    ⟨"bg-gray-100 text-gray-900", "text-gray-700", "text-indigo-500", "border-indigo-500",
     "bg-indigo-100", "text-indigo-800", "bg-white", "bg-indigo-100", "bg-indigo-200"⟩

/-- A row of the hosted `portfolios` table as read back by get-portfolio.js. -/
structure SharedRow where
  share_id : String
  portfolio_data : Json
  profile_picture_url : String
  selected_theme : String

/-- One entry of the Work Experience map of get-portfolio.js lines 138-146. -/
def netlifyExpEntryHtml (ts : ThemeStyles) (job : Json) : Except JsError String :=
  match jsGetProp (some job) "role" with
  | Except.error e => Except.error e
  | Except.ok rolev =>
    match jsGetProp (some job) "company" with
    | Except.error e => Except.error e
    | Except.ok companyv =>
      match jsGetProp (some job) "dates" with
      | Except.error e => Except.error e
      | Except.ok datesv =>
        match jsGetProp (some job) "description" with
        | Except.error e => Except.error e
        | Except.ok descv =>
          match jsArrayOrDefault descv with
          | Except.error e => Except.error e
          | Except.ok ds =>
            Except.ok ("<div class=\"mb-4\"><h4 class=\"text-lg font-bold\">"
              ++ jsOrString rolev "Role" ++ " at " ++ jsOrString companyv "Company"
              ++ "</h4><p class=\"text-sm " ++ ts.secondaryColor ++ " mb-1\">"
              ++ jsOrString datesv ""
              ++ "</p><ul class=\"list-disc list-inside " ++ ts.textColor ++ "\">"
              ++ String.join (ds.map (fun d => "<li>" ++ jsToString d ++ "</li>"))
              ++ "</ul></div>")

/-- One entry of the Projects map of get-portfolio.js lines 158-164. -/
def netlifyProjEntryHtml (ts : ThemeStyles) (proj : Json) : Except JsError String :=
  match jsGetProp (some proj) "title" with
  | Except.error e => Except.error e
  | Except.ok titlev =>
    match jsGetProp (some proj) "description" with
    | Except.error e => Except.error e
    | Except.ok descv =>
      match jsGetProp (some proj) "link" with
      | Except.error e => Except.error e
      | Except.ok linkv =>
        Except.ok ("<div class=\"" ++ ts.cardBg ++ " p-4 rounded-lg mb-4 shadow\"><h4 class=\"font-bold "
          ++ ts.secondaryColor ++ "\">" ++ jsOrString titlev "Project Title"
          ++ "</h4><p class=\"" ++ ts.textColor ++ " text-sm mt-1\">" ++ jsOrString descv ""
          ++ "</p>"
          ++ (if jsTruthy linkv then
                "<a href=\"" ++ jsVal linkv
                ++ "\" target=\"_blank\" class=\"text-blue-400 hover:underline text-sm mt-2 inline-block\">View Project &rarr;</a>"
              else "")
          ++ "</div>")

/-- The experience map/join with its fallback (get-portfolio.js line 146). -/
def netlifyExperienceSection (entries : List String) : String :=
  jsOrElse (String.join entries) "<p class=\"text-gray-500\">No work experience listed.</p>"

/-- The skills map/join with its fallback (get-portfolio.js line 153). -/
def netlifySkillsSection (ts : ThemeStyles) (skills : List Json) : String :=
  jsOrElse
    (String.join (skills.map (fun skill =>
      "<span class=\"" ++ ts.skillBg ++ " " ++ ts.skillText
        ++ " text-sm font-medium mr-2 mb-2 px-3 py-1 rounded-full\">"
        ++ jsToString skill ++ "</span>")))
    "<p class=\"text-gray-500\">No skills listed.</p>"

/-- The projects map/join with its fallback (get-portfolio.js lines 158-164). -/
def netlifyProjectsSection (entries : List String) : String :=
  jsOrElse (String.join entries) "<p class=\"text-gray-500\">No projects listed.</p>"

/-- Everything of the get-portfolio.js document before the projects-section body
(lines 55-157).  `${themeStyles}` inside the style block interpolates the style
OBJECT, which JS stringifies as [object Object]. -/
def netlifyHtmlPre (ts : ThemeStyles) (siteUrl shareId pictureUrl : String)
    (namev emailv phonev linkedinv githubv websitev summaryv : Option Json)
    (expHtml skillsHtml : String) : String :=
  "<!DOCTYPE html><html lang=\"en\"><head><meta charset=\"UTF-8\" /><meta name=\"viewport\" content=\"width=device-width, initial-scale=1.0\" /><title>"
  ++ jsOrString namev "Portfolio"
  ++ " | Professional Portfolio</title><meta property=\"og:type\" content=\"website\" /><meta property=\"og:url\" content=\""
  ++ siteUrl ++ "/shared/" ++ shareId
  ++ "\" /><meta property=\"og:title\" content=\"" ++ jsOrString namev "Portfolio"
  ++ "\" /><meta property=\"og:description\" content=\"" ++ jsOrString summaryv "Professional portfolio"
  ++ "\" /><meta property=\"og:image\" content=\""
  ++ jsOrElse pictureUrl "https://via.placeholder.com/1200x627/4F46E5/FFFFFF?text=Portfolio"
  ++ "\" /><meta property=\"twitter:card\" content=\"summary_large_image\" /><meta property=\"twitter:url\" content=\""
  ++ siteUrl ++ "/shared/" ++ shareId
  ++ "\" /><meta property=\"twitter:title\" content=\"" ++ jsOrString namev "Portfolio"
  ++ "\" /><meta property=\"twitter:description\" content=\"" ++ jsOrString summaryv "Professional portfolio"
  ++ "\" /><meta property=\"twitter:image\" content=\""
  ++ jsOrElse pictureUrl "https://via.placeholder.com/1200x627/4F46E5/FFFFFF?text=Portfolio"
  ++ "\" /><script src=\"https://cdn.tailwindcss.com\"></script><link href=\"https://fonts.googleapis.com/css2?family=Inter:wght@400;500;700&family=Roboto+Mono:wght@400;500&display=swap\" rel=\"stylesheet\"><link rel=\"stylesheet\" href=\"https://cdnjs.cloudflare.com/ajax/libs/font-awesome/6.4.0/css/all.min.css\"><style>body \x7b font-family: \x27Inter\x27, sans-serif; \x7d .font-mono \x7b font-family: \x27Roboto Mono\x27, monospace; \x7d .social-link \x7b display: inline-flex; align-items: center; justify-content: center; width: 48px; height: 48px; border-radius: 50%; transition: all 0.3s ease; \x7d .social-link:hover \x7b transform: translateY(-3px); \x7d [object Object]</style></head><body class=\""
  ++ ts.bodyClass
  ++ " min-h-screen\"><div class=\"container mx-auto p-4 md:p-8 max-w-5xl\"><header class=\"flex flex-col md:flex-row items-center text-center md:text-left gap-8 mb-12\"><img src=\""
  ++ jsOrElse pictureUrl "https://via.placeholder.com/150"
  ++ "\" alt=\"Profile Picture\" class=\"w-36 h-36 rounded-full border-4 " ++ ts.borderColor
  ++ " object-cover shadow-lg\"><div><h1 class=\"text-4xl md:text-5xl font-bold\">"
  ++ jsOrString namev "Your Name"
  ++ "</h1><p class=\"text-xl " ++ ts.secondaryColor ++ " mt-1\">"
  ++ (if jsTruthy emailv then
        "<a href=\"mailto:" ++ jsVal emailv ++ "\" class=\"hover:underline\">" ++ jsVal emailv ++ "</a>"
      else "your.email@example.com")
  ++ "</p>"
  ++ (if jsTruthy phonev then
        "<p class=\"" ++ ts.textColor ++ " mb-4\"><i class=\"fas fa-phone mr-2\"></i>" ++ jsVal phonev ++ "</p>"
      else "")
  ++ "<div class=\"flex justify-center md:justify-start gap-4 mt-4\">"
  ++ (if jsTruthy emailv then
        "<a href=\"mailto:" ++ jsVal emailv ++ "\" class=\"social-link " ++ ts.socialBg
          ++ " hover:" ++ ts.socialHover
          ++ " transition-colors\" title=\"Email\"><i class=\"fas fa-envelope text-xl\"></i></a>"
      else "")
  ++ (if jsTruthy linkedinv then
        "<a href=\"" ++ jsVal linkedinv ++ "\" target=\"_blank\" class=\"social-link " ++ ts.socialBg
          ++ " hover:" ++ ts.socialHover
          ++ " transition-colors\" title=\"LinkedIn\"><i class=\"fab fa-linkedin text-xl\"></i></a>"
      else "")
  ++ (if jsTruthy githubv then
        "<a href=\"" ++ jsVal githubv ++ "\" target=\"_blank\" class=\"social-link " ++ ts.socialBg
          ++ " hover:" ++ ts.socialHover
          ++ " transition-colors\" title=\"GitHub\"><i class=\"fab fa-github text-xl\"></i></a>"
      else "")
  ++ (if jsTruthy websitev then
        "<a href=\"" ++ jsVal websitev ++ "\" target=\"_blank\" class=\"social-link " ++ ts.socialBg
          ++ " hover:" ++ ts.socialHover
          ++ " transition-colors\" title=\"Website\"><i class=\"fas fa-globe text-xl\"></i></a>"
      else "")
  ++ "</div></div></header><div class=\"grid md:grid-cols-3 gap-8\"><div class=\"md:col-span-2 space-y-8\"><section><h2 class=\"text-2xl font-bold border-b-2 "
  ++ ts.borderColor ++ " pb-2 mb-4\">Professional Summary</h2><p class=\"" ++ ts.textColor ++ "\">"
  ++ jsOrString summaryv "No summary provided."
  ++ "</p></section><section><h2 class=\"text-2xl font-bold border-b-2 "
  ++ ts.borderColor ++ " pb-2 mb-4\">Work Experience</h2>" ++ expHtml
  ++ "</section></div><div class=\"md:col-span-1 space-y-8\"><section><h2 class=\"text-2xl font-bold border-b-2 "
  ++ ts.borderColor ++ " pb-2 mb-4\">Skills</h2><div class=\"flex flex-wrap\">" ++ skillsHtml
  ++ "</div></section><section><h2 class=\"text-2xl font-bold border-b-2 "
  ++ ts.borderColor ++ " pb-2 mb-4\">Projects</h2>"

/-- Everything of the get-portfolio.js document after the projects-section body
(lines 165-177). -/
def netlifyHtmlPost (ts : ThemeStyles) (siteUrl shareId : String) : String :=
  "</section></div></div><footer class=\"mt-12 pt-6 border-t " ++ ts.borderColor
  ++ " text-center " ++ ts.textColor
  ++ " text-sm\"><p>This portfolio was created with PortfolioForge AI</p><p class=\"mt-2\">Shared via: "
  ++ siteUrl ++ "/shared/" ++ shareId
  ++ "</p></footer></div></body></html>"

/-- generatePortfolioHTML of src/netlify/functions/get-portfolio.js lines 48-178.
The destructuring of `portfolio_data` and the direct `personalInfo.X` reads (this
variant has no `|| \x7b\x7d` guard) can throw; `siteUrl` stands for process.env.URL. -/
def generatePortfolioHTML (row : SharedRow) (siteUrl : String) : Except JsError String :=
  Except.bind (jsGetProp (some row.portfolio_data) "personalInfo") (fun piv =>
  Except.bind (jsGetProp (some row.portfolio_data) "summary") (fun summaryv =>
  Except.bind (jsGetProp (some row.portfolio_data) "skills") (fun skillsv =>
  Except.bind (jsGetProp (some row.portfolio_data) "experience") (fun expv =>
  Except.bind (jsGetProp (some row.portfolio_data) "projects") (fun projv =>
  let ts := getThemeStyles row.selected_theme
  Except.bind (jsGetProp piv "name") (fun namev =>
  Except.bind (jsGetProp piv "email") (fun emailv =>
  Except.bind (jsGetProp piv "phone") (fun phonev =>
  Except.bind (jsGetProp piv "linkedin") (fun linkedinv =>
  Except.bind (jsGetProp piv "github") (fun githubv =>
  Except.bind (jsGetProp piv "website") (fun websitev =>
  Except.bind (jsArrayOrDefault expv) (fun exps =>
  Except.bind (mapExcept (netlifyExpEntryHtml ts) exps) (fun expEntries =>
  Except.bind (jsArrayOrDefault skillsv) (fun skills =>
  Except.bind (jsArrayOrDefault projv) (fun projs =>
  Except.bind (mapExcept (netlifyProjEntryHtml ts) projs) (fun projEntries =>
  Except.ok (netlifyHtmlPre ts siteUrl row.share_id
      row.profile_picture_url namev emailv phonev linkedinv
      githubv websitev summaryv
      (netlifyExperienceSection expEntries)
      (netlifySkillsSection ts skills)
    ++ netlifyProjectsSection projEntries
    ++ netlifyHtmlPost ts siteUrl row.share_id)))))))))))))))))

/-! ## Evaluation checks of the embedded builtins and components -/

example : jsonParse "\x7b\x22summary\x22: \x22x\x22\x7d" = some (Json.obj [("summary", Json.str "x")]) := rfl
example : jsonParse " null " = some Json.null := rfl
example : jsonParse "\x5b1, -2.5e3, true\x5d"
    = some (Json.arr [Json.num "1", Json.num "-2.5e3", Json.bool true]) := rfl
example : jsonParse "pure prose" = none := rfl
example : jsonParse "\x7b\x22a\x22: 1\x7d tail" = none := rfl
example : jsonParse "01" = none := rfl
example : jsonParse "\x22a\\u0041b\x22" = some (Json.str "aAb") := rfl
example : jsonParse "\x7b\x22a\x22: 1, \x22a\x22: 2\x7d" = some (Json.obj [("a", Json.num "2")]) := rfl
example : jsTrim "  a b \n " = "a b" := rfl
example : jsReplaceAll "x```json y```json" "```json" "" = "x y" := rfl
example : jsReplaceFirst "text-blue-400" "text-" "border-" = "border-blue-400" := rfl
example : jsCharAt "John" 0 = "J" := rfl
example : jsCharAt "" 0 = "" := rfl
example : convertUsernameToUrl "github" "octocat" = "https://github.com/octocat" := rfl
example : convertUsernameToUrl "linkedin" "jane" = "https://linkedin.com/in/jane" := rfl
example : convertUsernameToUrl "github" "https://github.com/octocat" = "https://github.com/octocat" := rfl
example : convertUsernameToUrl "github" "" = "" := rfl
example : convertUsernameToUrl "twitter" "jane" = "jane" := rfl
example : extractJsonText "```json\n\x7b\x22summary\x22: \x22x\x22\x7d\n```" = "\x7b\x22summary\x22: \x22x\x22\x7d" := rfl
example : extractJsonText "Here it is: \x7b\x22a\x22: 1\x7d" = "\x7b\x22a\x22: 1\x7d" := rfl
example : firstBalancedSpan "x \x7b\x22a\x22: 1\x7d y \x7b\x22b\x22: 2\x7d" = some "\x7b\x22a\x22: 1\x7d" := rfl
example : greedyBraceSpan "x \x7b\x22a\x22: 1\x7d y \x7b\x22b\x22: 2\x7d" = some "\x7b\x22a\x22: 1\x7d y \x7b\x22b\x22: 2\x7d" := rfl
example : classifyProfessionAndSelectTheme (Except.ok "Software Developer") = themeSoftwareDeveloper := rfl
example : classifyProfessionAndSelectTheme (Except.ok " Data Scientist \n") = themeDataScientist := rfl
example : classifyProfessionAndSelectTheme (Except.ok "Chef") = themeDefault := rfl
example : classifyProfessionAndSelectTheme (Except.error (JsError.external "boom")) = themeDefault := rfl
example : normalizeSocials (Json.obj [("personalInfo", Json.obj [("linkedin", Json.str "jane")])])
    = Except.ok (Json.obj [("personalInfo",
        Json.obj [("linkedin", Json.str "https://linkedin.com/in/jane")])]) := rfl
example : (normalizeSocials (Json.obj [("summary", Json.str "x")])).isOk = false := rfl

/-! ## Helper lemmas -/

theorem except_bind_ok {α β : Type} {x : Except JsError α} {f : α → Except JsError β} {b : β}
    (h : Except.bind x f = Except.ok b) : ∃ a, x = Except.ok a ∧ f a = Except.ok b := by
  cases x with
  | error e => exact absurd h (by simp [Except.bind])
  | ok a => exact ⟨a, rfl, h⟩

theorem str_append_assoc (a b c : String) : a ++ b ++ c = a ++ (b ++ c) := by
  cases a with
  | mk da =>
    cases b with
    | mk db =>
      cases c with
      | mk dc =>
        show String.mk (da ++ db ++ dc) = String.mk (da ++ (db ++ dc))
        rw [List.append_assoc]

theorem linkedin_url_startsWith (u : String) :
    jsStartsWith ("https://linkedin.com/in/" ++ u) "https://" = true := by
  cases u with
  | mk d => rfl

theorem github_url_startsWith (u : String) :
    jsStartsWith ("https://github.com/" ++ u) "https://" = true := by
  cases u with
  | mk d => rfl

theorem linkedin_url_ne_empty (u : String) : "https://linkedin.com/in/" ++ u ≠ "" := by
  cases u with
  | mk d =>
    intro h
    have h2 : "https://linkedin.com/in/".data ++ d = ([] : List Char) := congrArg String.data h
    simp at h2

theorem github_url_ne_empty (u : String) : "https://github.com/" ++ u ≠ "" := by
  cases u with
  | mk d =>
    intro h
    have h2 : "https://github.com/".data ++ d = ([] : List Char) := congrArg String.data h
    simp at h2

theorem append_contains_mid (a b1 n b2 c : String) :
    ∃ l r, a ++ (b1 ++ n ++ b2) ++ c = l ++ n ++ r :=
  ⟨a ++ b1, b2 ++ c, by simp only [str_append_assoc]⟩

theorem lookupField_setField (fs : List (String × Json)) (k : String) (v : Json) :
    lookupField (setField fs k v) k = some v := by
  induction fs with
  | nil => simp [setField, lookupField]
  | cons hd tl ih =>
    by_cases hk : hd.1 = k
    · simp [setField, hk, lookupField]
    · cases hd with
      | mk k' v' =>
        simp only [setField, lookupField]
        simp only at hk
        rw [if_neg hk, lookupField, if_neg hk]
        exact ih

theorem findIdx?_append_none (p : Char → Bool) (l1 l2 : List Char) (n : Nat)
    (h : ∀ a ∈ l1, p a = false) :
    List.findIdx? p (l1 ++ l2) n = List.findIdx? p l2 (n + l1.length) := by
  induction l1 generalizing n with
  | nil => simp
  | cons a as ih =>
    have ha : p a = false := h a (List.mem_cons_self a as)
    rw [List.cons_append, List.findIdx?_cons, if_neg (by simp [ha])]
    rw [ih (n + 1) (fun x hx => h x (List.mem_cons_of_mem a hx))]
    have : n + 1 + as.length = n + (a :: as).length := by simp; omega
    rw [this]

theorem greedy_span_shape (pre mid post : List Char)
    (h1 : '\x7b' ∉ pre) (h2 : '\x7d' ∉ post) :
    greedyBraceSpan (String.mk (pre ++ '\x7b' :: (mid ++ '\x7d' :: post)))
      = some (String.mk ('\x7b' :: (mid ++ ['\x7d']))) := by
  have hfirst :
      List.findIdx? (fun c => c == '\x7b') (pre ++ '\x7b' :: (mid ++ '\x7d' :: post)) 0
        = some pre.length := by
    rw [findIdx?_append_none _ pre _ 0 (fun a ha => by
      simp only [beq_eq_false_iff_ne]
      intro hc
      exact h1 (hc ▸ ha))]
    rw [List.findIdx?_cons, if_pos (by simp)]
    simp
  have hrev : (pre ++ '\x7b' :: (mid ++ '\x7d' :: post)).reverse
      = post.reverse ++ '\x7d' :: (mid.reverse ++ '\x7b' :: pre.reverse) := by
    simp [List.reverse_append]
  have hsecond :
      List.findIdx? (fun c => c == '\x7d') (pre ++ '\x7b' :: (mid ++ '\x7d' :: post)).reverse 0
        = some post.length := by
    rw [hrev]
    rw [findIdx?_append_none _ post.reverse _ 0 (fun a ha => by
      simp only [beq_eq_false_iff_ne]
      intro hc
      exact h2 (hc ▸ (List.mem_reverse.mp ha)))]
    rw [List.findIdx?_cons, if_pos (by simp)]
    simp
  have hlen : (pre ++ '\x7b' :: (mid ++ '\x7d' :: post)).length
      = pre.length + mid.length + post.length + 2 := by
    simp [List.length_append]
    omega
  unfold greedyBraceSpan
  have hto : (String.mk (pre ++ '\x7b' :: (mid ++ '\x7d' :: post))).toList
      = pre ++ '\x7b' :: (mid ++ '\x7d' :: post) := rfl
  simp only [hto, hfirst, hsecond, hlen]
  have hj : pre.length + mid.length + post.length + 2 - 1 - post.length
      = pre.length + mid.length + 1 := by omega
  rw [hj, if_pos (by omega)]
  have hdrop : (pre ++ '\x7b' :: (mid ++ '\x7d' :: post)).drop pre.length
      = '\x7b' :: (mid ++ '\x7d' :: post) := List.drop_left pre _
  have htakeLen : pre.length + mid.length + 1 - pre.length + 1 = mid.length + 1 + 1 := by omega
  rw [hdrop, htakeLen, List.take_succ_cons]
  have htake2 : (mid ++ '\x7d' :: post).take (mid.length + 1) = mid ++ ['\x7d'] := by
    rw [List.take_append]
    simp
  rw [htake2]

/-! ## Claim theorems -/

/-- C7: the Username Normalizer is idempotent: for every platform tag and every value,
normalizing the result of normalization returns it unchanged; in particular
normalize("github","octocat") = "https://github.com/octocat" and normalizing an
already-normalized URL returns it unchanged. -/
theorem c7_normalizer_idempotent :
    (∀ platform v,
      convertUsernameToUrl platform (convertUsernameToUrl platform v)
        = convertUsernameToUrl platform v)
  ∧ convertUsernameToUrl "github" "octocat" = "https://github.com/octocat"
  ∧ convertUsernameToUrl "github" "https://github.com/octocat" = "https://github.com/octocat" := by
  refine ⟨?_, rfl, rfl⟩
  intro platform v
  by_cases hv : v = ""
  · simp [convertUsernameToUrl, hv]
  · by_cases hs : (jsStartsWith v "http://" || jsStartsWith v "https://") = true
    · simp [convertUsernameToUrl, hv, hs]
    · by_cases hp1 : platform = "linkedin"
      · simp [convertUsernameToUrl, hv, hs, hp1, linkedin_url_ne_empty v,
          linkedin_url_startsWith v]
      · by_cases hp2 : platform = "github"
        · simp [convertUsernameToUrl, hv, hs, hp1, hp2, github_url_ne_empty v,
            github_url_startsWith v]
        · simp [convertUsernameToUrl, hv, hs, hp1, hp2]

/-- C8: for linkedin or github, the normalizer returns the value unchanged when it
already starts with http:// or https://, otherwise prepends the platform's canonical
profile URL prefix; it never fails and maps empty input to empty output. -/
theorem c8_normalizer_spec :
    (∀ platform v,
      (jsStartsWith v "http://" = true ∨ jsStartsWith v "https://" = true) →
      convertUsernameToUrl platform v = v)
  ∧ (∀ v, v ≠ "" → jsStartsWith v "http://" = false → jsStartsWith v "https://" = false →
      convertUsernameToUrl "linkedin" v = "https://linkedin.com/in/" ++ v)
  ∧ (∀ v, v ≠ "" → jsStartsWith v "http://" = false → jsStartsWith v "https://" = false →
      convertUsernameToUrl "github" v = "https://github.com/" ++ v)
  ∧ (∀ platform, convertUsernameToUrl platform "" = "") := by
  refine ⟨?_, ?_, ?_, ?_⟩
  · intro platform v h
    by_cases hv : v = ""
    · subst hv
      rcases h with h | h <;> exact absurd h (by decide)
    · have hs : (jsStartsWith v "http://" || jsStartsWith v "https://") = true := by
        rcases h with h | h <;> simp [h]
      simp [convertUsernameToUrl, hv, hs]
  · intro v hv h1 h2
    simp [convertUsernameToUrl, hv, h1, h2]
  · intro v hv h1 h2
    simp [convertUsernameToUrl, hv, h1, h2]
  · intro platform
    simp [convertUsernameToUrl]

/-- Witness for C8 at concrete inputs. -/
theorem c8_normalizer_spec_witness :
    (jsStartsWith "https://github.com/octocat" "https://" = true
      ∧ convertUsernameToUrl "github" "https://github.com/octocat" = "https://github.com/octocat")
  ∧ (("jane" : String) ≠ "" ∧ jsStartsWith "jane" "http://" = false
      ∧ jsStartsWith "jane" "https://" = false
      ∧ convertUsernameToUrl "linkedin" "jane" = "https://linkedin.com/in/jane"
      ∧ convertUsernameToUrl "github" "jane" = "https://github.com/jane")
  ∧ convertUsernameToUrl "linkedin" "" = "" := by
  refine ⟨⟨rfl, ?_⟩, ⟨by decide, rfl, rfl, ?_, ?_⟩, ?_⟩
  · exact c8_normalizer_spec.1 "github" "https://github.com/octocat" (Or.inr rfl)
  · exact c8_normalizer_spec.2.1 "jane" (by decide) rfl rfl
  · exact c8_normalizer_spec.2.2.1 "jane" (by decide) rfl rfl
  · exact c8_normalizer_spec.2.2.2 "linkedin"

/-- C3: on a model response with no parsable JSON, the part_000 extractor throws
exactly the intended Error "AI model returned an invalid JSON format.", while the
server.js extractor's catch block reads the try-scoped `response` and therefore
throws a ReferenceError instead (a scoping slip in that copy); either
way the resume route performs exactly one model call (no retry), answers 500, and
persists nothing. -/
theorem c3_malformed_extraction_behavior :
    parseResumeWithAI (Except.ok "The model could not process this resume.")
      = Except.error (JsError.referenceError "response is not defined")
  ∧ parseResumeWithAIPart000 (Except.ok "The model could not process this resume.")
      = Except.error (JsError.error "AI model returned an invalid JSON format.")
  ∧ generateFromResumeRoute "resume text" (Except.ok "The model could not process this resume.")
      (Except.ok "Software Developer") none "id-1" 0 (fun _ => none)
      = ⟨500, 1, fun _ => none⟩ :=
  ⟨rfl, rfl, rfl⟩

/-- C4 (amended): in the extractor variants that have the fallback (parseResumeWithAI
of src/server.js and its src/unnamed/part_000 copy), parsing first strips markdown
code-fence markers; if the remaining text does not start with a brace, it substitutes
the greedy regex span running from the FIRST opening brace to the LAST closing brace
of the text (for any text pre-brace-mid-brace-post with no opening brace in pre and
no closing brace in post, that span is exactly brace-mid-brace), then applies a
strict JSON parse; there, a JSON object wrapped in a json code fence parses
successfully, and a JSON object embedded in surrounding prose parses successfully
when no closing brace follows it.  The generateFromResume extractor of
src/generate-portfolio.js has NO brace-span fallback: it only strips fence markers
and trims, so whenever the cleaned text does not parse strictly as JSON the extractor
throws, and in particular a JSON object embedded in surrounding prose always fails
there even though a fenced one still parses. -/
theorem c4_parse_pipeline_amended :
    (∀ pre mid post : List Char, '\x7b' ∉ pre → '\x7d' ∉ post →
      greedyBraceSpan (String.mk (pre ++ '\x7b' :: (mid ++ '\x7d' :: post)))
        = some (String.mk ('\x7b' :: (mid ++ ['\x7d']))))
  ∧ (∀ raw m, jsStartsWith (stripFences raw) "\x7b" = false →
      greedyBraceSpan (stripFences raw) = some m → extractJsonText raw = m)
  ∧ (∀ raw, jsStartsWith (stripFences raw) "\x7b" = true →
      extractJsonText raw = stripFences raw)
  ∧ parseResumeWithAI (Except.ok "```json\n\x7b\x22summary\x22: \x22x\x22\x7d\n```")
      = Except.ok (Json.obj [("summary", Json.str "x")])
  ∧ parseResumeWithAI (Except.ok "Here is the JSON you asked for: \x7b\x22summary\x22: \x22x\x22\x7d")
      = Except.ok (Json.obj [("summary", Json.str "x")])
  ∧ (∀ text classifyResp,
      jsonParse (jsTrim (jsReplaceAll (jsReplaceAll text "```json\n" "") "```" "")) = none →
      (generateFromResume (Except.ok text) classifyResp).1
        = Except.error (JsError.syntaxError "Unexpected token in JSON"))
  ∧ (generateFromResume (Except.ok "Here is the JSON you asked for: \x7b\x22summary\x22: \x22x\x22\x7d")
        (Except.ok "Default")).1
      = Except.error (JsError.syntaxError "Unexpected token in JSON")
  ∧ (generateFromResume (Except.ok "```json\n\x7b\x22summary\x22: \x22x\x22\x7d\n```")
        (Except.ok "Default")).1
      = Except.ok (Json.obj [("summary", Json.str "x"), ("profession", Json.str "Default")]) := by
  refine ⟨greedy_span_shape, ?_, ?_, rfl, rfl, ?_, rfl, rfl⟩
  · intro raw m h hm
    simp [extractJsonText, h, hm]
  · intro raw h
    simp [extractJsonText, h]
  · intro text classifyResp h
    simp [generateFromResume, h]

/-- Witness for C4 (amended) at concrete inputs, applying each hypothesis-bearing
conjunct. -/
theorem c4_parse_pipeline_amended_witness :
    greedyBraceSpan (String.mk ("note ".toList ++ '\x7b' :: ("\x221\x22: 2".toList ++ '\x7d' :: " end".toList)))
      = some (String.mk ('\x7b' :: ("\x221\x22: 2".toList ++ ['\x7d'])))
  ∧ (jsStartsWith (stripFences "prose \x7b\x22a\x22: 1\x7d") "\x7b" = false
      ∧ greedyBraceSpan (stripFences "prose \x7b\x22a\x22: 1\x7d") = some "\x7b\x22a\x22: 1\x7d"
      ∧ extractJsonText "prose \x7b\x22a\x22: 1\x7d" = "\x7b\x22a\x22: 1\x7d")
  ∧ (jsStartsWith (stripFences "```json\n\x7b\x22a\x22: 1\x7d\n```") "\x7b" = true
      ∧ extractJsonText "```json\n\x7b\x22a\x22: 1\x7d\n```" = stripFences "```json\n\x7b\x22a\x22: 1\x7d\n```")
  ∧ (jsonParse (jsTrim (jsReplaceAll (jsReplaceAll
        "Here is the JSON you asked for: \x7b\x22summary\x22: \x22x\x22\x7d" "```json\n" "") "```" ""))
        = none
      ∧ (generateFromResume
          (Except.ok "Here is the JSON you asked for: \x7b\x22summary\x22: \x22x\x22\x7d")
          (Except.ok "Default")).1
        = Except.error (JsError.syntaxError "Unexpected token in JSON")) := by
  refine ⟨?_, ⟨rfl, rfl, ?_⟩, ⟨rfl, ?_⟩, ⟨rfl, ?_⟩⟩
  · exact c4_parse_pipeline_amended.1 "note ".toList "\x221\x22: 2".toList " end".toList
      (by decide) (by decide)
  · exact c4_parse_pipeline_amended.2.1 "prose \x7b\x22a\x22: 1\x7d" "\x7b\x22a\x22: 1\x7d" rfl rfl
  · exact c4_parse_pipeline_amended.2.2.1 "```json\n\x7b\x22a\x22: 1\x7d\n```" rfl
  · exact c4_parse_pipeline_amended.2.2.2.2.2.1
      "Here is the JSON you asked for: \x7b\x22summary\x22: \x22x\x22\x7d" (Except.ok "Default") rfl

/-- C4 counterexample: the claim says the pipeline recovers the FIRST BALANCED brace
span; on a response holding two objects the spec-modelled first balanced span parses,
but the code's greedy first-to-last span does not, and the extractor throws. -/
theorem c4_counterexample :
    specExtractJsonText "note \x7b\x22a\x22: 1\x7d and \x7b\x22b\x22: 2\x7d"
      = "\x7b\x22a\x22: 1\x7d"
  ∧ extractJsonText "note \x7b\x22a\x22: 1\x7d and \x7b\x22b\x22: 2\x7d"
      = "\x7b\x22a\x22: 1\x7d and \x7b\x22b\x22: 2\x7d"
  ∧ jsonParse (specExtractJsonText "note \x7b\x22a\x22: 1\x7d and \x7b\x22b\x22: 2\x7d")
      = some (Json.obj [("a", Json.num "1")])
  ∧ jsonParse (extractJsonText "note \x7b\x22a\x22: 1\x7d and \x7b\x22b\x22: 2\x7d") = none
  ∧ parseResumeWithAIPart000 (Except.ok "note \x7b\x22a\x22: 1\x7d and \x7b\x22b\x22: 2\x7d")
      = Except.error (JsError.error "AI model returned an invalid JSON format.") :=
  ⟨rfl, rfl, rfl, rfl, rfl⟩

/-- C5 (amended): in the express server's generate-from-resume route, a request whose
resume text is empty after PDF extraction fails fast with a 400, performs zero model
calls, and leaves the store exactly as it was.  (The serverless variants behave
differently: see the counterexample.) -/
theorem c5_empty_resume_fails_fast (resumeText : String)
    (extractResp classifyResp : Except JsError String)
    (photo : Option (String × String)) (newId : String) (now : Nat) (store : Store)
    (h : jsTrim resumeText = "") :
    generateFromResumeRoute resumeText extractResp classifyResp photo newId now store
      = ⟨400, 0, store⟩ := by
  have hlen : (jsTrim resumeText).length = 0 := by rw [h]; rfl
  simp [generateFromResumeRoute, hlen]

/-- Witness for C5 at a concrete whitespace-only resume text. -/
theorem c5_empty_resume_fails_fast_witness :
    jsTrim "  \n  " = ""
  ∧ generateFromResumeRoute "  \n  " (Except.ok "x") (Except.ok "y") none "id-1" 0
      (fun _ => none) = ⟨400, 0, fun _ => none⟩ :=
  ⟨rfl, c5_empty_resume_fails_fast "  \n  " (Except.ok "x") (Except.ok "y") none "id-1" 0
    (fun _ => none) rfl⟩

/-- C5 counterexample: the claim fails outside the express route.  The part_000
serverless handler sends even an empty resumeText to the model (one model call, not
zero, and no 400), and the generate-portfolio.js handler routes an empty resumeText
into the manual branch, failing with a 500 TypeError rather than a 400 InputError. -/
theorem c5_empty_resume_counterexample :
    (part000AiHandler (some "") none (Except.ok "Please provide a resume to analyze.")
        (Except.ok "Default") "s1" none []).modelCalls = 1
  ∧ (part000AiHandler (some "") none (Except.ok "Please provide a resume to analyze.")
        (Except.ok "Default") "s1" none []).statusCode = 500
  ∧ generatePortfolioHandler (some "") none (Except.ok "unused") (Except.ok "unused") none []
      = ⟨500, 0, []⟩ :=
  ⟨rfl, rfl, rfl⟩

/-- C6 (amended): manual assembly never calls the external model; in the serverless
generate-portfolio function the persisted profile's profession is "Default" and the
attached theme is the Default theme, while the express server's manual endpoint also
makes no model call but persists the client-supplied theme unchanged and leaves the
profession field unset. -/
theorem c6_manual_assembly_amended :
    (∀ fs extractResp classifyResp store,
      generatePortfolioHandler none (some (Json.obj fs)) extractResp classifyResp none store
        = ⟨200, 0,
           store ++ [⟨Json.obj (setField fs "profession" (Json.str "Default")),
                      themeNetlifyDefault⟩]⟩)
  ∧ (∀ manualData extractResp classifyResp insertError store,
      (generatePortfolioHandler none manualData extractResp classifyResp
        insertError store).modelCalls = 0)
  ∧ (∀ portfolioData theme photo newId now store,
      (createManualPortfolioRoute portfolioData theme photo newId now store).modelCalls = 0) := by
  refine ⟨?_, ?_, ?_⟩
  · intro fs extractResp classifyResp store
    have hset : generateFromManual (some (Json.obj fs))
        = Except.ok (Json.obj (setField fs "profession" (Json.str "Default"))) := rfl
    have hget : jsGetProp (some (Json.obj (setField fs "profession" (Json.str "Default"))))
        "profession" = Except.ok (some (Json.str "Default")) := by
      simp [jsGetProp, lookupField_setField]
    simp [generatePortfolioHandler, hset, hget, netlifySelectedTheme, netlifyThemeLookup]
  · intro manualData extractResp classifyResp insertError store
    cases manualData with
    | none =>
      cases insertError <;> simp [generatePortfolioHandler, generateFromManual]
    | some m =>
      cases m <;> cases insertError <;>
        simp [generatePortfolioHandler, generateFromManual, jsSetProp] <;>
        split <;> simp
  · intro portfolioData theme photo newId now store
    unfold createManualPortfolioRoute
    split
    · rfl
    · split <;> rfl

/-- C6 counterexample: the express server's manual endpoint stores the client-chosen
theme (here Developer Dark), not the Default theme, and stores no profession field at
all, refuting the claim for that cited handler. -/
theorem c6_counterexample :
    (createManualPortfolioRoute (Json.obj [("personalInfo", Json.obj [])])
        themeSoftwareDeveloper none "id-1" 0 (fun _ => none)).store "id-1"
      = some ⟨Json.obj [("personalInfo", Json.obj [])], themeSoftwareDeveloper,
              "https://placehold.co/150x150/222/fff?text=P", 0, none⟩
  ∧ themeSoftwareDeveloper ≠ themeDefault
  ∧ jsGetProp (some (Json.obj [("personalInfo", Json.obj [])])) "profession"
      = Except.ok none :=
  ⟨rfl, by decide, rfl⟩

/-- C9: whenever a persisted record's projects sequence is absent or empty and the
renderer succeeds, the rendered HTML document contains the literal placeholder text
"No projects listed." (the projects section is the placeholder paragraph, not an
empty section); this holds for the server.js renderer and for the get-portfolio.js
renderer. -/
theorem c9_projects_placeholder :
    (∀ p portfolioUrl imageUrl html,
      (jsGetProp (some (Portfolio.data p)) "projects" = Except.ok none ∨
       jsGetProp (some (Portfolio.data p)) "projects" = Except.ok (some (Json.arr []))) →
      portfolioPageHtml p portfolioUrl imageUrl = Except.ok html →
      ∃ l r, html = l ++ "No projects listed." ++ r)
  ∧ (∀ row siteUrl html,
      (jsGetProp (some (SharedRow.portfolio_data row)) "projects" = Except.ok none ∨
       jsGetProp (some (SharedRow.portfolio_data row)) "projects" = Except.ok (some (Json.arr []))) →
      generatePortfolioHTML row siteUrl = Except.ok html →
      ∃ l r, html = l ++ "No projects listed." ++ r) := by
  constructor
  · intro p portfolioUrl imageUrl html hproj hrender
    unfold portfolioPageHtml at hrender
    obtain ⟨piv0, h1, hrender⟩ := except_bind_ok hrender
    obtain ⟨summaryv, h2, hrender⟩ := except_bind_ok hrender
    obtain ⟨expv, h3, hrender⟩ := except_bind_ok hrender
    obtain ⟨exps, h4, hrender⟩ := except_bind_ok hrender
    obtain ⟨expEntries, h5, hrender⟩ := except_bind_ok hrender
    obtain ⟨skillsv, h6, hrender⟩ := except_bind_ok hrender
    obtain ⟨skills, h7, hrender⟩ := except_bind_ok hrender
    obtain ⟨projv, h8, hrender⟩ := except_bind_ok hrender
    obtain ⟨projs, h9, hrender⟩ := except_bind_ok hrender
    obtain ⟨projEntries, h10, hrender⟩ := except_bind_ok hrender
    have hprojv : projv = none ∨ projv = some (Json.arr []) := by
      rcases hproj with h | h
      · exact Or.inl (Except.ok.inj (h8.symm.trans h))
      · exact Or.inr (Except.ok.inj (h8.symm.trans h))
    have hprojs : projs = [] := by
      rcases hprojv with h | h <;> subst h
      · have h9' : Except.ok ([] : List Json) = Except.ok projs := h9
        exact (Except.ok.inj h9').symm
      · have h9' : Except.ok ([] : List Json) = Except.ok projs := h9
        exact (Except.ok.inj h9').symm
    subst hprojs
    have h10' : Except.ok ([] : List String) = Except.ok projEntries := h10
    have hentries : projEntries = [] := (Except.ok.inj h10').symm
    subst hentries
    have hh := Except.ok.inj hrender
    rw [← hh]
    have hsec : serverProjectsSection ([] : List String)
        = "<p class=\"text-gray-400\">" ++ "No projects listed." ++ "</p>" := rfl
    rw [hsec]
    exact append_contains_mid _ _ "No projects listed." _ _
  · intro row siteUrl html hproj hrender
    unfold generatePortfolioHTML at hrender
    obtain ⟨piv, h1, hrender⟩ := except_bind_ok hrender
    obtain ⟨summaryv, h2, hrender⟩ := except_bind_ok hrender
    obtain ⟨skillsv, h3, hrender⟩ := except_bind_ok hrender
    obtain ⟨expv, h4, hrender⟩ := except_bind_ok hrender
    obtain ⟨projv, h5, hrender⟩ := except_bind_ok hrender
    obtain ⟨namev, h6, hrender⟩ := except_bind_ok hrender
    obtain ⟨emailv, h7, hrender⟩ := except_bind_ok hrender
    obtain ⟨phonev, h8, hrender⟩ := except_bind_ok hrender
    obtain ⟨linkedinv, h9, hrender⟩ := except_bind_ok hrender
    obtain ⟨githubv, h10, hrender⟩ := except_bind_ok hrender
    obtain ⟨websitev, h11, hrender⟩ := except_bind_ok hrender
    obtain ⟨exps, h12, hrender⟩ := except_bind_ok hrender
    obtain ⟨expEntries, h13, hrender⟩ := except_bind_ok hrender
    obtain ⟨skills, h14, hrender⟩ := except_bind_ok hrender
    obtain ⟨projs, h15, hrender⟩ := except_bind_ok hrender
    obtain ⟨projEntries, h16, hrender⟩ := except_bind_ok hrender
    have hprojv : projv = none ∨ projv = some (Json.arr []) := by
      rcases hproj with h | h
      · exact Or.inl (Except.ok.inj (h5.symm.trans h))
      · exact Or.inr (Except.ok.inj (h5.symm.trans h))
    have hprojs : projs = [] := by
      rcases hprojv with h | h <;> subst h
      · have h15' : Except.ok ([] : List Json) = Except.ok projs := h15
        exact (Except.ok.inj h15').symm
      · have h15' : Except.ok ([] : List Json) = Except.ok projs := h15
        exact (Except.ok.inj h15').symm
    subst hprojs
    have h16' : Except.ok ([] : List String) = Except.ok projEntries := h16
    have hentries : projEntries = [] := (Except.ok.inj h16').symm
    subst hentries
    have hh := Except.ok.inj hrender
    rw [← hh]
    have hsec : netlifyProjectsSection ([] : List String)
        = "<p class=\"text-gray-500\">" ++ "No projects listed." ++ "</p>" := rfl
    rw [hsec]
    exact append_contains_mid _ _ "No projects listed." _ _

/-- Witness for C9: a concrete record with an empty projects array renders (in both
variants) to a document that contains the placeholder. -/
theorem c9_projects_placeholder_witness :
    (∃ html,
      portfolioPageHtml
        ⟨Json.obj [("personalInfo", Json.obj [("name", Json.str "Jane")]),
                   ("summary", Json.str "Hi"), ("projects", Json.arr [])],
         themeDefault, "pic.png", 0, none⟩
        "http://h/portfolio/1" "http://h/img/1" = Except.ok html
      ∧ ∃ l r, html = l ++ "No projects listed." ++ r)
  ∧ (∃ html,
      generatePortfolioHTML
        ⟨"s1", Json.obj [("personalInfo", Json.obj [("name", Json.str "Jane")]),
                         ("projects", Json.arr [])], "", "Developer Dark"⟩
        "https://site" = Except.ok html
      ∧ ∃ l r, html = l ++ "No projects listed." ++ r) :=
  ⟨⟨_, rfl, c9_projects_placeholder.1
      ⟨Json.obj [("personalInfo", Json.obj [("name", Json.str "Jane")]),
                 ("summary", Json.str "Hi"), ("projects", Json.arr [])],
       themeDefault, "pic.png", 0, none⟩
      "http://h/portfolio/1" "http://h/img/1" _ (Or.inr rfl) rfl⟩,
   ⟨_, rfl, c9_projects_placeholder.2
      ⟨"s1", Json.obj [("personalInfo", Json.obj [("name", Json.str "Jane")]),
                       ("projects", Json.arr [])], "", "Developer Dark"⟩
      "https://site" _ (Or.inr rfl) rfl⟩⟩

end PortfolioForge
